import Mathlib

/-!
Verification of the packaging manifest `python/setup.py` of the
api-document-generator repository.

The repository's only source file is a `setup.py` that calls
`setuptools.setup(...)` with literal metadata, dependency lists, a console
entry point, and a `long_description` read from `README.md`, and computes
`packages` with `find_packages(where="python")`.  We embed the manifest as
Lean data, model its build-time evaluation as a function of an explicit
build environment, and model the supplied source tree as a list of files
with their top-level Python statements.
-/

/-- Drop the list `pre` from the front of `cs`; `none` when `cs` does not
start with `pre`. -/
def dropPre : List Char → List Char → Option (List Char)
  | [], cs => some cs
  | _ :: _, [] => none
  | p :: ps, c :: cs => if p = c then dropPre ps cs else none

/-- Drop the list `suf` from the back of `cs`; `none` when `cs` does not
end with `suf`. -/
def dropSuf (suf cs : List Char) : Option (List Char) :=
  (dropPre suf.reverse cs.reverse).map List.reverse

/-- Replace every `/` by `.` (path to dotted module name). -/
def slashToDot (cs : List Char) : List Char :=
  cs.map (fun c => if c = '/' then '.' else c)

/-- Replace every `.` by `/` (dotted module name to path). -/
def dotToSlash (cs : List Char) : List Char :=
  cs.map (fun c => if c = '.' then '/' else c)

/-- Model of `setuptools.find_packages(where=whereDir)` over a file tree
given as a list of paths (relative to the build directory): every
directory `d` strictly below `whereDir` that holds an `__init__.py`
becomes the dotted package name of `d`. -/
def findPackages (whereDir : String) (fs : List String) : List String :=
  fs.filterMap (fun p =>
    match dropPre (whereDir ++ "/").data p.data with
    | none => none
    | some rest =>
      match dropSuf "/__init__.py".data rest with
      | none => none
      | some pkg => if pkg = [] then none else some ⟨slashToDot pkg⟩)

/-- Top-level Python statements, at the granularity the supplied source
needs: a `from m import n1, n2` line, a `def`, a `class`, or an expression
statement that is a call of a named function. -/
inductive PyStmt where
  | importFrom (module : String) (names : List String)
  | funcDef (name : String)
  | classDef (name : String)
  | exprCall (callee : String)
deriving DecidableEq

/-- The two top-level statements of `python/setup.py`: the import line and
the single `setup(...)` call. -/
def setupPyStmts : List PyStmt :=
  [PyStmt.importFrom "setuptools" ["setup", "find_packages"],
   PyStmt.exprCall "setup"]

/-- The supplied source tree of the repository: one file, `python/setup.py`,
with its top-level statements. -/
def suppliedSource : List (String × List PyStmt) :=
  [("python/setup.py", setupPyStmts)]

/-- The paths of the supplied source files. -/
def suppliedPaths : List String := suppliedSource.map Prod.fst

def isFuncDef : PyStmt → Bool
  | PyStmt.funcDef _ => true
  | _ => false

def isClassDef : PyStmt → Bool
  | PyStmt.classDef _ => true
  | _ => false

def isExprCall : PyStmt → Bool
  | PyStmt.exprCall _ => true
  | _ => false

/-- File paths at which a dotted module could live: `m/o/d.py` or
`m/o/d/__init__.py`. -/
def moduleCandidates (module : String) : List String :=
  [String.mk (dotToSlash module.data) ++ ".py",
   String.mk (dotToSlash module.data) ++ "/__init__.py"]

/-- Does path `p` denote module `module`, either from the root or below
some directory on the path? -/
def pathMatchesModule (p module : String) : Bool :=
  (moduleCandidates module).any (fun mp =>
    p == mp || ("/" ++ mp).data.isSuffixOf p.data)

/-- Is the function `fn` of module `module` defined somewhere in a source
tree: some file whose path denotes `module` has a top-level `def fn`? -/
def targetDefined (src : List (String × List PyStmt)) (module fn : String) : Bool :=
  src.any (fun fp =>
    pathMatchesModule fp.fst module &&
    fp.snd.any (fun s =>
      match s with
      | PyStmt.funcDef n => n == fn
      | _ => false))

/-- `name=` argument of `setup()`. -/
def nameDecl : String := "api-doc-gen-python"

/-- `version=` argument of `setup()`. -/
def versionDecl : String := "1.0.0"

/-- `python_requires=` argument of `setup()`. -/
def pythonRequiresDecl : String := ">=3.9"

/-- `install_requires=` argument of `setup()`. -/
def installRequiresDecl : List String :=
  ["docstring-parser>=0.15",
   "pydoc-markdown>=4.8.0",
   "typing-extensions>=4.7.0",
   "pydantic>=2.4.0",
   "click>=8.1.0"]

/-- The `"dev"` list inside `extras_require=`. -/
def devRequiresDecl : List String :=
  ["pytest>=7.4.0",
   "pytest-cov>=4.1.0",
   "black>=23.7.0",
   "flake8>=6.0.0",
   "mypy>=1.5.0",
   "isort>=5.12.0",
   "pre-commit>=3.4.0"]

/-- `extras_require=` argument of `setup()`. -/
def extrasRequireDecl : List (String × List String) :=
  [("dev", devRequiresDecl)]

/-- `entry_points=` argument of `setup()`. -/
def entryPointsDecl : List (String × List String) :=
  [("console_scripts", ["api-doc-gen-python=api_doc_gen_python.cli:main"])]

/-- `classifiers=` argument of `setup()`. -/
def classifiersDecl : List String :=
  ["Development Status :: 4 - Beta",
   "Intended Audience :: Developers",
   "License :: OSI Approved :: MIT License",
   "Operating System :: OS Independent",
   "Programming Language :: Python :: 3",
   "Programming Language :: Python :: 3.9",
   "Programming Language :: Python :: 3.10",
   "Programming Language :: Python :: 3.11",
   "Programming Language :: Python :: 3.12",
   "Topic :: Software Development :: Documentation"]

/-- The full argument record of the `setup()` call. -/
structure SetupArgs where
  name : String
  version : String
  description : String
  long_description : String
  long_description_content_type : String
  author : String
  python_requires : String
  packages : List String
  package_dir : List (String × String)
  install_requires : List String
  extras_require : List (String × List String)
  entry_points : List (String × List String)
  classifiers : List String
deriving DecidableEq

/-- The arguments `setup()` receives, as a function of the content read
from `README.md` and the package list computed by `find_packages`; every
other field is the literal written in the manifest. -/
def setupArgs (readme : String) (pkgs : List String) : SetupArgs :=
  { name := nameDecl
    version := versionDecl
    description := "Python parser module for API Documentation Generator"
    long_description := readme
    long_description_content_type := "text/markdown"
    author := "API Documentation Generator Team"
    python_requires := pythonRequiresDecl
    packages := pkgs
    package_dir := [("", "python")]
    install_requires := installRequiresDecl
    extras_require := extrasRequireDecl
    entry_points := entryPointsDecl
    classifiers := classifiersDecl }

/-- A build environment: the file tree (paths with contents, relative to
the build directory) plus ambient state the manifest could in principle
observe (environment variables, a clock, randomness). -/
structure BuildEnv where
  files : List (String × String)
  envVars : List (String × String)
  clock : Nat
  randomSeed : Nat
deriving DecidableEq

/-- Read a file of the environment, `none` when absent. -/
def readFile (e : BuildEnv) (p : String) : Option String :=
  (e.files.find? (fun kv => kv.fst == p)).map Prod.snd

/-- The paths present in the environment. -/
def filePaths (e : BuildEnv) : List String := e.files.map Prod.fst

/-- Build-time evaluation of the manifest: `open("README.md").read()`
raises when the file is missing; otherwise `setup()` receives the record
of arguments, with `packages = find_packages(where="python")` over the
tree. -/
def evalSetup (e : BuildEnv) : Except String SetupArgs :=
  match readFile e "README.md" with
  | none => Except.error "FileNotFoundError: README.md"
  | some r => Except.ok (setupArgs r (findPackages "python" (filePaths e)))

/-- Split a list at the first occurrence of `c`; `none` when `c` is
absent. -/
def splitAtChar (c : Char) : List Char → Option (List Char × List Char)
  | [] => none
  | x :: xs =>
    if x = c then some ([], xs)
    else (splitAtChar c xs).map (fun p => (x :: p.1, p.2))

/-- Parse a console-script specification `cmd=module:func` into its three
parts (first `=`, then first `:`). -/
def parseEntryPoint (s : String) : Option (String × String × String) :=
  match splitAtChar '=' s.data with
  | none => none
  | some (cmd, rest) =>
    match splitAtChar ':' rest with
    | none => none
    | some (m, fn) => some (String.mk cmd, String.mk m, String.mk fn)

/-- The console-script specifications of an `entry_points` mapping. -/
def consoleScripts (eps : List (String × List String)) : List String :=
  ((eps.find? (fun kv => kv.fst == "console_scripts")).map Prod.snd).getD []

/-- The library name of a requirement string: the characters before the
first version-specifier character. -/
def reqName (r : String) : String :=
  String.mk (r.data.takeWhile (fun c =>
    c ≠ '<' && c ≠ '>' && c ≠ '=' && c ≠ '!' && c ≠ '~' && c ≠ ' '))

deriving instance DecidableEq for Except

/-- Does `pat` occur as a contiguous run somewhere in the list? -/
def containsSub (pat : List Char) : List Char → Bool
  | [] => (dropPre pat []).isSome
  | c :: cs => (dropPre pat (c :: cs)).isSome || containsSub pat cs

/-- A requirement string is a lower-bound-only constraint: it carries a
`>=` specifier and no upper bound (`<`), exact pin (`==`), exclusion
(`!=`), compatible-release pin (`~=`), or further comma-separated
clause. -/
def isLowerBoundOnly (r : String) : Bool :=
  containsSub ">=".data r.data &&
  !(containsSub "<".data r.data) &&
  !(containsSub "==".data r.data) &&
  !(containsSub "!=".data r.data) &&
  !(containsSub "~=".data r.data) &&
  !(r.data.contains ',')

/-- A build environment holding exactly the supplied source tree (no
`README.md`). -/
def envNoReadme : BuildEnv :=
  { files := [("python/setup.py", "")], envVars := [], clock := 0, randomSeed := 0 }

/-- A build environment with a `README.md` and no package directory. -/
def env9a : BuildEnv :=
  { files := [("README.md", "r")], envVars := [], clock := 0, randomSeed := 0 }

/-- A build environment with the same `README.md` as `env9a` and one
package directory `python/pkg`. -/
def env9b : BuildEnv :=
  { files := [("README.md", "r"), ("python/pkg/__init__.py", "")],
    envVars := [], clock := 0, randomSeed := 0 }

/-- Claim C1, counterexample: on the supplied source tree it is false
that `find_packages(where="python")` finds the package and that the
entry-point target `api_doc_gen_python.cli:main` exists, so the declared
metadata is not internally consistent as claimed. -/
theorem spec_C1_counterexample :
    ¬ (findPackages "python" suppliedPaths ≠ [] ∧
       targetDefined suppliedSource "api_doc_gen_python.cli" "main" = true) := by
  decide

/-- Claim C1, amended: the declared package metadata is not internally
consistent with the supplied tree: `find_packages(where="python")`
locates no package, and the console entry-point target
`api_doc_gen_python.cli:main` is not defined anywhere in the supplied
source. -/
theorem spec_C1_amended :
    findPackages "python" suppliedPaths = [] ∧
    targetDefined suppliedSource "api_doc_gen_python.cli" "main" = false := by
  decide

/-- Claim C2: evaluating the manifest fails at build time if and only if
`README.md` is missing from the build environment; in every environment
holding a `README.md` the evaluation succeeds, whatever else varies. -/
theorem spec_C2 (e : BuildEnv) :
    (∃ msg, evalSetup e = Except.error msg) ↔ readFile e "README.md" = none := by
  cases hr : readFile e "README.md" <;> simp [evalSetup, hr]

/-- Claim C2, witness: the supplied tree has no `README.md`, and there
evaluation errors. -/
theorem spec_C2_witness :
    readFile envNoReadme "README.md" = none ∧
    (∃ msg, evalSetup envNoReadme = Except.error msg) :=
  ⟨by decide, (spec_C2 envNoReadme).mpr (by decide)⟩

/-- Claim C3: the manifest declares exactly one console-script entry
point, `api-doc-gen-python=api_doc_gen_python.cli:main`, it parses to the
command `api-doc-gen-python` targeting function `main` of module
`api_doc_gen_python.cli`, and that function is not defined anywhere in
the supplied source (indeed no supplied file defines any function). -/
theorem spec_C3 :
    entryPointsDecl =
      [("console_scripts", ["api-doc-gen-python=api_doc_gen_python.cli:main"])] ∧
    (consoleScripts entryPointsDecl).length = 1 ∧
    parseEntryPoint "api-doc-gen-python=api_doc_gen_python.cli:main" =
      some ("api-doc-gen-python", "api_doc_gen_python.cli", "main") ∧
    targetDefined suppliedSource "api_doc_gen_python.cli" "main" = false ∧
    suppliedSource.all (fun fp => fp.snd.all (fun s => !(isFuncDef s))) = true := by
  decide

/-- Claim C4: `install_requires` lists exactly five libraries, and their
names are `docstring-parser`, `pydoc-markdown`, `typing-extensions`,
`pydantic`, and `click`. -/
theorem spec_C4 :
    installRequiresDecl.length = 5 ∧
    installRequiresDecl.map reqName =
      ["docstring-parser", "pydoc-markdown", "typing-extensions", "pydantic", "click"] := by
  decide

/-- Claim C5: the manifest declares `python_requires=">=3.9"`, and the
classifier list claims compatibility with every Python minor version
from 3.9 through 3.12. -/
theorem spec_C5 :
    pythonRequiresDecl = ">=3.9" ∧
    (["3.9", "3.10", "3.11", "3.12"].all (fun v =>
      classifiersDecl.contains ("Programming Language :: Python :: " ++ v))) = true := by
  decide

/-- Claim C6: the manifest declares the package name to be exactly
`api-doc-gen-python` and the version to be exactly `1.0.0`, and these
are the `name` and `version` arguments `setup()` receives. -/
theorem spec_C6 :
    nameDecl = "api-doc-gen-python" ∧ versionDecl = "1.0.0" ∧
    (setupArgs "" []).name = "api-doc-gen-python" ∧
    (setupArgs "" []).version = "1.0.0" := by
  decide

/-- Claim C7: the only extra is `dev`, it lists exactly seven tools, and
their names are `pytest`, `pytest-cov`, `black`, `flake8`, `mypy`,
`isort`, and `pre-commit`. -/
theorem spec_C7 :
    extrasRequireDecl = [("dev", devRequiresDecl)] ∧
    devRequiresDecl.length = 7 ∧
    devRequiresDecl.map reqName =
      ["pytest", "pytest-cov", "black", "flake8", "mypy", "isort", "pre-commit"] := by
  decide

/-- Claim C8: the supplied source is the single file `python/setup.py`,
whose top level is one import line followed by one `setup()` call, with
no function definitions, no class definitions, and no other calls. -/
theorem spec_C8 :
    suppliedSource = [("python/setup.py", setupPyStmts)] ∧
    setupPyStmts =
      [PyStmt.importFrom "setuptools" ["setup", "find_packages"],
       PyStmt.exprCall "setup"] ∧
    setupPyStmts.filter isFuncDef = [] ∧
    setupPyStmts.filter isClassDef = [] ∧
    setupPyStmts.filter isExprCall = [PyStmt.exprCall "setup"] := by
  decide

/-- Claim C9, counterexample: two build environments agreeing on the
content of `README.md` can pass different arguments to `setup()`: adding
`python/pkg/__init__.py` changes the computed `packages` argument, so
`README.md` is not the manifest's single input. -/
theorem spec_C9_counterexample :
    readFile env9a "README.md" = readFile env9b "README.md" ∧
    evalSetup env9a ≠ evalSetup env9b := by
  decide

/-- Claim C9, amended: the manifest is deterministic in the content of
`README.md` together with the package tree seen by
`find_packages(where="python")` — environment variables, clock and
randomness are never read; `long_description` equals exactly the content
read from `README.md`; and every field other than `long_description` and
`packages` is a fixed literal. -/
theorem spec_C9_amended :
    (∀ e₁ e₂ : BuildEnv, readFile e₁ "README.md" = readFile e₂ "README.md" →
        findPackages "python" (filePaths e₁) = findPackages "python" (filePaths e₂) →
        evalSetup e₁ = evalSetup e₂) ∧
    (∀ (r : String) (pkgs : List String), (setupArgs r pkgs).long_description = r) ∧
    (∀ (r : String) (pkgs : List String),
        { setupArgs r pkgs with long_description := "", packages := [] } = setupArgs "" []) := by
  refine ⟨?_, fun r pkgs => rfl, fun r pkgs => rfl⟩
  intro e₁ e₂ h₁ h₂
  unfold evalSetup
  rw [h₁, h₂]

/-- Claim C9, witness: two concrete environments with the same
`README.md` and file tree but different environment variables, clock and
randomness evaluate to the same `setup()` arguments. -/
theorem spec_C9_witness :
    evalSetup { files := [("README.md", "doc")], envVars := [("K", "V")],
                clock := 5, randomSeed := 7 } =
    evalSetup { files := [("README.md", "doc")], envVars := [],
                clock := 0, randomSeed := 0 } :=
  spec_C9_amended.1 _ _ (by decide) (by decide)

/-- Claim C10: every dependency constraint, across `install_requires`
and every extra, is a lower-bound-only `>=` constraint with no upper
bound, exact pin, exclusion, or extra clause. -/
theorem spec_C10 :
    (installRequiresDecl.all isLowerBoundOnly &&
     extrasRequireDecl.all (fun kv => kv.snd.all isLowerBoundOnly)) = true := by
  decide
